import Mathlib

/-!
Shallow embedding of the flask-docker-traefik service: the `User` model and
`GET /` route of `app/main.py`, the `create_db` and `seed_db` commands of
`app/manage.py`, and the configuration class of
`services/web/project/config.py`.  The relational store is a list of
persisted rows together with the next primary key to assign; the storage
layer enforces the column constraints declared on the model
(`db.String(120)`, `unique=True`, `nullable=False`) and applies the declared
column default for `active` at insertion.  A failed commit rolls the
transaction back, so a failing command surfaces an error and leaves the
store unchanged.
-/

namespace FlaskTraefik

/-- A persisted row of the `users` table.  Every column holds a value:
`email` and `active` are declared `nullable=False`, and `id` is the primary
key that the storage layer assigns at insertion. -/
structure Row where
  id : Nat
  email : String
  active : Bool
deriving DecidableEq, Repr

/-- A transient `User` object of `app/main.py` before it is persisted:
`id` and `active` are instrumented attributes holding no value (Python
`None`, here `none`) until the row is flushed; the declaration
`active = db.Column(db.Boolean(), default=True, nullable=False)` makes the
storage layer fill `active` with `true` at insertion when it was never
set. -/
structure User where
  id : Option Nat := none
  email : String
  active : Option Bool := none
deriving DecidableEq, Repr

/-- `User.__init__(self, email)`: the constructor assigns only
`self.email`. -/
def User.init (email : String) : User :=
  { email := email }

/-- The state of the relational store: the persisted rows in storage order
(insertion order, the default order in which `query.all()` returns them)
and the next primary key value. -/
structure Store where
  rows : List Row
  nextId : Nat
deriving DecidableEq, Repr

/-- The empty freshly created schema, as left by `db.create_all()` on an
empty database. -/
def Store.fresh : Store :=
  { rows := [], nextId := 1 }

/-- The storage-layer errors exercised by this codebase: a uniqueness
violation on `email`, and a value exceeding the declared `String(120)`
column length. -/
inductive DBErr where
  | uniqueViolation
  | valueTooLong
deriving DecidableEq, Repr

/-- Whether some persisted row already carries the given email. -/
def emailExists (rows : List Row) (e : String) : Bool :=
  rows.any fun r => r.email == e

/-- Flushing one pending `User` object into the store.  The storage layer
checks the declared column constraints of the model
(`db.String(120)` and `unique=True` on `email`), assigns the primary key,
and applies the column default `active=True` when the attribute was never
set. -/
def insertRow (s : Store) (u : User) : Except DBErr Store :=
  if 120 < u.email.length then
    .error .valueTooLong
  else if emailExists s.rows u.email then
    .error .uniqueViolation
  else
    .ok { rows := s.rows ++ [{ id := s.nextId, email := u.email, active := u.active.getD true }],
          nextId := s.nextId + 1 }

/-- Running a transactional command to completion: a successful commit
installs the new store state; a failed commit rolls the transaction back,
leaving the store unchanged and surfacing the storage error (which no code
in scope catches, so it propagates to the caller). -/
def runTxn (s : Store) (r : Except DBErr Store) : Store × Option DBErr :=
  match r with
  | .ok s2 => (s2, none)
  | .error e => (s, some e)

/-- `create_db`: `db.drop_all()` then `db.create_all()` then
`db.session.commit()` — whatever the prior state, the end state is the
empty freshly created schema. -/
def create_db (_ : Store) : Store :=
  Store.fresh

/-- `seed_db`: adds `User(email="michael@mherman.org")` and
`User(email="test@example.com")` to one session and commits once, so both
insertions belong to a single transaction; the flush inserts the two
pending objects in order and the first failure aborts the whole
transaction. -/
def seed_db (s : Store) : Except DBErr Store :=
  match insertRow s (User.init "michael@mherman.org") with
  | .error e => .error e
  | .ok s1 => insertRow s1 (User.init "test@example.com")

/-- JSON values, for the response body produced by `jsonify`. -/
inductive Json where
  | null
  | bool (b : Bool)
  | num (n : Int)
  | str (s : String)
  | arr (elems : List Json)
  | obj (fields : List (String × Json))

/-- Dataclass serialization of a persisted row, as `jsonify` performs it:
exactly the three annotated fields, in declaration order `id`, `email`,
`active`. -/
def Row.toJson (r : Row) : Json :=
  .obj [("id", .num r.id), ("email", .str r.email), ("active", .bool r.active)]

/-- An HTTP response: a status code and a JSON body. -/
structure Response where
  status : Nat
  body : Json

/-- The `GET /` handler `read_root`: `User.query.all()` followed by
`jsonify(users)`.  It is modelled as a state transformer on the store so
that its frame property is statable: it returns the store it was given
together with the response. -/
def read_root (s : Store) : Store × Response :=
  (s, { status := 200, body := .arr (s.rows.map Row.toJson) })

/-- `Config.SQLALCHEMY_DATABASE_URI = os.getenv("DATABASE_URL", "sqlite://")`:
the process environment is represented by the optional value of the
`DATABASE_URL` variable; `"sqlite://"` denotes a transient in-memory
SQLite store. -/
def Config.SQLALCHEMY_DATABASE_URI (databaseUrl : Option String) : String :=
  databaseUrl.getD "sqlite://"

/-- `Config.SQLALCHEMY_TRACK_MODIFICATIONS = False`. -/
def Config.SQLALCHEMY_TRACK_MODIFICATIONS : Bool :=
  false

/-- Store states reachable by the code in scope: the fresh schema, the
result of `create_db`, the result of a successful `seed_db`, and (for the
write paths not present in this codebase but allowed in principle) the
result of any successful single insertion. -/
inductive Reachable : Store → Prop
  | fresh : Reachable Store.fresh
  | create (s : Store) (h : Reachable s) : Reachable (create_db s)
  | seed (s s2 : Store) (h : Reachable s) (hs : seed_db s = .ok s2) : Reachable s2
  | ins (s s2 : Store) (u : User) (h : Reachable s) (hi : insertRow s u = .ok s2) :
      Reachable s2

/-- The store produced by running `create_db` and then `seed_db` on any
prior state: the two seed rows with primary keys 1 and 2. -/
def seededStore : Store :=
  { rows := [{ id := 1, email := "michael@mherman.org", active := true },
             { id := 2, email := "test@example.com", active := true }],
    nextId := 3 }

/-- An email of 121 characters, exceeding the declared `String(120)`
column length. -/
def longEmail : String :=
  String.mk (List.replicate 121 (Char.ofNat 97))

/-! ### Helper lemmas about single insertions -/

/-- A successful insertion appends exactly one row: the pending object with
the assigned primary key and the `active` default applied. -/
theorem insertRow_ok_rows {s s2 : Store} {u : User} (h : insertRow s u = .ok s2) :
    s2.rows = s.rows ++
      [{ id := s.nextId, email := u.email, active := u.active.getD true }] := by
  unfold insertRow at h
  split at h
  · simp at h
  · split at h
    · simp at h
    · simp only [Except.ok.injEq] at h
      rw [← h]

/-- A successful insertion implies the email fit the declared column
length. -/
theorem insertRow_ok_length {s s2 : Store} {u : User} (h : insertRow s u = .ok s2) :
    u.email.length ≤ 120 := by
  unfold insertRow at h
  split at h
  · simp at h
  · omega

/-- A successful insertion implies the email was not yet present. -/
theorem insertRow_ok_not_present {s s2 : Store} {u : User}
    (h : insertRow s u = .ok s2) : emailExists s.rows u.email = false := by
  unfold insertRow at h
  split at h
  · simp at h
  · split at h
    · simp at h
    · rename_i hex
      exact Bool.not_eq_true _ ▸ hex

/-- Inserting a pending object whose email is already persisted fails with
a uniqueness violation. -/
theorem insertRow_dup {s : Store} {u : User} (hlen : u.email.length ≤ 120)
    (hex : emailExists s.rows u.email = true) :
    insertRow s u = .error .uniqueViolation := by
  unfold insertRow
  rw [if_neg (by omega), if_pos hex]

/-- Membership of a row makes `emailExists` true for its email. -/
theorem emailExists_of_mem {rows : List Row} {r : Row} (hm : r ∈ rows) :
    emailExists rows r.email = true := by
  simp only [emailExists, List.any_eq_true, beq_iff_eq]
  exact ⟨r, hm, rfl⟩

/-- `emailExists` is monotone under appending rows on the right. -/
theorem emailExists_append_left {rows l : List Row} {e : String}
    (h : emailExists rows e = true) : emailExists (rows ++ l) e = true := by
  simp only [emailExists, List.any_append, Bool.or_eq_true]
  exact Or.inl (by simpa [emailExists] using h)

/-- `emailExists` is false exactly when no persisted row carries the
email. -/
theorem emailExists_eq_false {rows : List Row} {e : String} :
    emailExists rows e = false ↔ ∀ r ∈ rows, r.email ≠ e := by
  simp [emailExists, List.any_eq_false]

/-- A successful insertion preserves distinctness of the persisted
emails. -/
theorem insertRow_ok_nodup {s s2 : Store} {u : User}
    (hn : (s.rows.map Row.email).Nodup) (h : insertRow s u = .ok s2) :
    (s2.rows.map Row.email).Nodup := by
  have hr := insertRow_ok_rows h
  have hf := insertRow_ok_not_present h
  rw [hr, List.map_append]
  refine List.Nodup.append hn (List.nodup_singleton _) ?_
  intro a ha hb
  simp only [List.map_cons, List.map_nil, List.mem_singleton] at hb
  obtain ⟨r, hrm, hre⟩ := List.mem_map.mp ha
  exact emailExists_eq_false.mp hf r hrm (by rw [hre, hb])

/-- A successful insertion preserves the declared 120-character bound on
every persisted email. -/
theorem insertRow_ok_bound {s s2 : Store} {u : User}
    (hb : ∀ r ∈ s.rows, r.email.length ≤ 120) (h : insertRow s u = .ok s2) :
    ∀ r ∈ s2.rows, r.email.length ≤ 120 := by
  have hr := insertRow_ok_rows h
  have hl := insertRow_ok_length h
  rw [hr]
  intro r hmem
  rcases List.mem_append.mp hmem with hm | hm
  · exact hb r hm
  · rw [List.mem_singleton.mp hm]
    exact hl

/-! ### Helper lemmas about the seed command -/

/-- If the first seed insertion fails, `seed_db` surfaces that error. -/
theorem seed_db_err {s : Store} {e : DBErr}
    (h : insertRow s (User.init "michael@mherman.org") = .error e) :
    seed_db s = .error e := by
  unfold seed_db
  rw [h]

/-- If the first seed insertion succeeds, `seed_db` continues with the
second insertion on the intermediate state. -/
theorem seed_db_step {s s1 : Store}
    (h : insertRow s (User.init "michael@mherman.org") = .ok s1) :
    seed_db s = insertRow s1 (User.init "test@example.com") := by
  unfold seed_db
  rw [h]

/-- A successful `seed_db` decomposes into two successful insertions. -/
theorem seed_db_ok_split {s s2 : Store} (h : seed_db s = .ok s2) :
    ∃ s1 : Store, insertRow s (User.init "michael@mherman.org") = .ok s1 ∧
      insertRow s1 (User.init "test@example.com") = .ok s2 := by
  cases h1 : insertRow s (User.init "michael@mherman.org") with
  | error e => rw [seed_db_err h1] at h; simp at h
  | ok s1 => exact ⟨s1, rfl, by rw [← seed_db_step h1]; exact h⟩

/-- Every reachable store state has pairwise-distinct emails, all within
the declared 120-character bound. -/
theorem reachable_inv {s : Store} (h : Reachable s) :
    (s.rows.map Row.email).Nodup ∧ ∀ r ∈ s.rows, r.email.length ≤ 120 := by
  induction h with
  | fresh => simp [Store.fresh]
  | create s h ih => simp [create_db, Store.fresh]
  | seed s s2 h hs ih =>
      obtain ⟨s1, h1, h2⟩ := seed_db_ok_split hs
      exact ⟨insertRow_ok_nodup (insertRow_ok_nodup ih.1 h1) h2,
             insertRow_ok_bound (insertRow_ok_bound ih.2 h1) h2⟩
  | ins s s2 u h hi ih =>
      exact ⟨insertRow_ok_nodup ih.1 hi, insertRow_ok_bound ih.2 hi⟩

/-! ### The claims -/

/-- C1: for every store state, handling `GET /` yields status 200 and a
JSON array holding exactly one object per persisted row in storage-default
order, each object carrying exactly the keys `id`, `email`, `active` in
that order; in particular every store with zero rows yields the empty
array, not an error. -/
theorem C1_get_root_lists_users (s : Store) :
    (read_root s).2.status = 200 ∧
    (read_root s).2.body = Json.arr (s.rows.map Row.toJson) ∧
    (∀ r : Row, Row.toJson r =
      Json.obj [("id", Json.num r.id), ("email", Json.str r.email),
                ("active", Json.bool r.active)]) ∧
    (s.rows = [] → (read_root s).2.body = Json.arr []) := by
  refine ⟨rfl, rfl, fun r => rfl, fun h => ?_⟩
  simp [read_root, h]

/-- C1 witness: the fresh store has zero rows and `GET /` on it yields the
empty array. -/
theorem C1_witness : (read_root Store.fresh).2.body = Json.arr [] :=
  (C1_get_root_lists_users Store.fresh).2.2.2 rfl

/-- C2: running `create_db` then `seed_db` on any store succeeds and
leaves exactly two records, with emails `michael@mherman.org` and
`test@example.com`, both active, and `GET /` then returns exactly those
two serialized objects. -/
theorem C2_create_seed_get (s : Store) :
    ∃ s2 : Store, seed_db (create_db s) = .ok s2 ∧
      s2.rows.length = 2 ∧
      s2.rows.map Row.email = ["michael@mherman.org", "test@example.com"] ∧
      (∀ r ∈ s2.rows, r.active = true) ∧
      (read_root s2).2.status = 200 ∧
      (read_root s2).2.body = Json.arr
        [Json.obj [("id", Json.num 1), ("email", Json.str "michael@mherman.org"),
                   ("active", Json.bool true)],
         Json.obj [("id", Json.num 2), ("email", Json.str "test@example.com"),
                   ("active", Json.bool true)]] := by
  refine ⟨seededStore, rfl, rfl, rfl, ?_, rfl, rfl⟩
  decide

/-- C3: after any successful `seed_db`, a second `seed_db` with no
intervening `create_db` fails with a uniqueness violation on the first
duplicate insert; nothing in scope catches the error, so it surfaces to
the caller. -/
theorem C3_seed_twice_fails (s s2 : Store) (h : seed_db s = .ok s2) :
    seed_db s2 = .error DBErr.uniqueViolation := by
  obtain ⟨s1, h1, h2⟩ := seed_db_ok_split h
  have hr1 := insertRow_ok_rows h1
  have hr2 := insertRow_ok_rows h2
  have hmem : ({ id := s.nextId, email := "michael@mherman.org", active := true } : Row)
      ∈ s2.rows := by
    rw [hr2, hr1]
    simp [User.init]
  have hex : emailExists s2.rows "michael@mherman.org" = true :=
    emailExists_of_mem hmem
  exact seed_db_err (insertRow_dup (by decide) hex)

/-- C3 witness: seeding the fresh store succeeds, and seeding the resulting
store fails with a uniqueness violation. -/
theorem C3_witness : seed_db seededStore = .error DBErr.uniqueViolation :=
  C3_seed_twice_fails Store.fresh seededStore rfl

/-- C4: in every reachable store state the persisted emails are pairwise
distinct; inserting a record whose email equals an already-persisted row's
email fails with a uniqueness violation, and, the failed insertion being
its own transaction, it leaves the store unchanged, so the first record
remains persisted. -/
theorem C4_email_uniqueness (s : Store) (h : Reachable s) :
    (s.rows.map Row.email).Nodup ∧
    ∀ (u1 u2 : User) (s1 : Store), u2.email = u1.email →
      insertRow s u1 = .ok s1 →
      runTxn s1 (insertRow s1 u2) = (s1, some DBErr.uniqueViolation) ∧
      ∃ r ∈ (runTxn s1 (insertRow s1 u2)).1.rows, r.email = u1.email := by
  refine ⟨(reachable_inv h).1, ?_⟩
  intro u1 u2 s1 he h1
  have hl := insertRow_ok_length h1
  have hr := insertRow_ok_rows h1
  have hmem : ({ id := s.nextId, email := u1.email, active := u1.active.getD true } : Row)
      ∈ s1.rows := by
    rw [hr]
    simp
  have hex : emailExists s1.rows u2.email = true := by
    rw [he]
    exact emailExists_of_mem hmem
  have hfail : insertRow s1 u2 = .error .uniqueViolation :=
    insertRow_dup (by rw [he]; exact hl) hex
  rw [hfail]
  exact ⟨rfl, ⟨_, hmem, rfl⟩⟩

/-- C4 witness: in the store holding one row with email `a`, inserting a
second `User` with email `a` fails with a uniqueness violation and the
original row is still persisted. -/
theorem C4_witness :
    runTxn { rows := [{ id := 1, email := "a", active := true }], nextId := 2 }
        (insertRow { rows := [{ id := 1, email := "a", active := true }], nextId := 2 }
          (User.init "a")) =
      ({ rows := [{ id := 1, email := "a", active := true }], nextId := 2 }, some DBErr.uniqueViolation) :=
  ((C4_email_uniqueness Store.fresh Reachable.fresh).2 (User.init "a") (User.init "a")
    { rows := [{ id := 1, email := "a", active := true }], nextId := 2 } rfl rfl).1

/-- C5: `create_db` is idempotent in effect — whatever the prior state
(rows included), it leaves the empty fresh schema, running it twice
changes nothing more, and `GET /` immediately afterwards returns the empty
array with status 200. -/
theorem C5_create_db_idempotent (s : Store) :
    create_db s = Store.fresh ∧
    (create_db s).rows = [] ∧
    create_db (create_db s) = create_db s ∧
    (read_root (create_db s)).2.status = 200 ∧
    (read_root (create_db s)).2.body = Json.arr [] :=
  ⟨rfl, rfl, rfl, rfl, rfl⟩

/-- C6: the configuration yields the `DATABASE_URL` value as the
connection URI when the variable is present, and otherwise the default
`sqlite://` denoting a transient in-memory store; absence is never an
error, and modification tracking is always off. -/
theorem C6_config (databaseUrl : Option String) :
    (∀ uri : String, databaseUrl = some uri →
      Config.SQLALCHEMY_DATABASE_URI databaseUrl = uri) ∧
    (databaseUrl = none → Config.SQLALCHEMY_DATABASE_URI databaseUrl = "sqlite://") ∧
    Config.SQLALCHEMY_TRACK_MODIFICATIONS = false := by
  refine ⟨fun uri h => ?_, fun h => ?_, rfl⟩
  · rw [h]
    rfl
  · rw [h]
    rfl

/-- C6 witness: a set variable is passed through and an unset one falls
back to the in-memory default. -/
theorem C6_witness :
    Config.SQLALCHEMY_DATABASE_URI (some "postgresql://db/users") = "postgresql://db/users" ∧
    Config.SQLALCHEMY_DATABASE_URI none = "sqlite://" :=
  ⟨(C6_config (some "postgresql://db/users")).1 _ rfl, (C6_config none).2.1 rfl⟩

/-- C7 counterexample: the constructor `User.__init__` assigns only
`self.email`, so on the freshly constructed object the `active` attribute
is still unassigned (`none`), not `true`; the column default `active=True`
is applied only when the row is persisted.  The claim as stated is
therefore false at email `a`. -/
theorem C7_counterexample :
    ¬ ((User.init "a").email = "a" ∧ (User.init "a").active = some true ∧
       (User.init "a").id = none) := by
  decide

/-- C7 (amended): constructing a `User` from an email string yields a new
unsaved record whose `email` equals the given string and whose `id` and
`active` are both unassigned until the record is persisted; at insertion
the storage layer assigns the `id` and fills `active` with the column
default `true`. -/
theorem C7_construction (e : String) :
    (User.init e).email = e ∧ (User.init e).id = none ∧
    (User.init e).active = none ∧
    ∀ s s1 : Store, insertRow s (User.init e) = .ok s1 →
      ∃ r ∈ s1.rows, r.email = e ∧ r.active = true ∧ r.id = s.nextId := by
  refine ⟨rfl, rfl, rfl, ?_⟩
  intro s s1 h1
  have hr := insertRow_ok_rows h1
  refine ⟨{ id := s.nextId, email := e, active := true }, ?_, rfl, rfl, rfl⟩
  rw [hr]
  simp [User.init]

/-- C7 witness: constructing and persisting a user with email `a` into the
fresh store yields a persisted row with that email, `active` true and the
assigned primary key 1. -/
theorem C7_witness :
    ∃ r ∈ ({ rows := [{ id := 1, email := "a", active := true }], nextId := 2 } : Store).rows,
      r.email = "a" ∧ r.active = true ∧ r.id = Store.fresh.nextId :=
  (C7_construction "a").2.2.2 Store.fresh _ rfl

/-- C8: the `GET /` handler is a pure read — for every store state it
returns the store unchanged: same row list (hence the same set of
persisted records), same next primary key, no update or delete on any code
path of the HTTP service. -/
theorem C8_read_root_pure (s : Store) :
    (read_root s).1 = s ∧
    (read_root s).1.rows = s.rows ∧
    (∀ r : Row, r ∈ (read_root s).1.rows ↔ r ∈ s.rows) ∧
    (read_root s).1.nextId = s.nextId :=
  ⟨rfl, rfl, fun _ => Iff.rfl, rfl⟩

/-- C9: in every reachable store state each persisted row's email is at
most 120 characters (and the typed fields mean no column is null), and the
bound is enforced on every insertion path: inserting a longer email fails
and leaves the store unchanged. -/
theorem C9_email_bound (s : Store) (h : Reachable s) :
    (∀ r ∈ s.rows, r.email.length ≤ 120) ∧
    ∀ u : User, 120 < u.email.length →
      runTxn s (insertRow s u) = (s, some DBErr.valueTooLong) := by
  refine ⟨(reachable_inv h).2, ?_⟩
  intro u hu
  unfold insertRow
  rw [if_pos hu]
  rfl

/-- C9 witness: inserting a 121-character email into the fresh store is
rejected and the store is unchanged. -/
theorem C9_witness :
    runTxn Store.fresh (insertRow Store.fresh { email := longEmail }) =
      (Store.fresh, some DBErr.valueTooLong) :=
  (C9_email_bound Store.fresh Reachable.fresh).2 { email := longEmail } (by decide)

/-- C10: `seed_db` performs both insertions in one session with a single
commit, so a failed run is atomic: whenever the store already contains
either seed email, the run fails with a uniqueness violation, the
transaction rolls back, and the set of persisted records is unchanged. -/
theorem C10_seed_db_atomic (s : Store)
    (h : emailExists s.rows "michael@mherman.org" = true ∨
         emailExists s.rows "test@example.com" = true) :
    runTxn s (seed_db s) = (s, some DBErr.uniqueViolation) := by
  cases hm : emailExists s.rows "michael@mherman.org" with
  | true =>
      rw [seed_db_err (insertRow_dup (by decide) hm)]
      rfl
  | false =>
      have ht : emailExists s.rows "test@example.com" = true := by
        rcases h with h | h
        · rw [hm] at h
          cases h
        · exact h
      have h1 : insertRow s (User.init "michael@mherman.org") =
          .ok { rows := s.rows ++
                  [{ id := s.nextId, email := "michael@mherman.org", active := true }],
                nextId := s.nextId + 1 } := by
        unfold insertRow
        rw [if_neg (by decide), if_neg (by simp [User.init, hm])]
        rfl
      have ht2 : emailExists (s.rows ++
          [{ id := s.nextId, email := "michael@mherman.org", active := true }])
          "test@example.com" = true :=
        emailExists_append_left ht
      rw [seed_db_step h1, insertRow_dup (by decide) ht2]
      rfl

/-- C10 witness: on a store already holding `michael@mherman.org`,
`seed_db` fails with a uniqueness violation and persists neither seed
row. -/
theorem C10_witness :
    runTxn { rows := [{ id := 1, email := "michael@mherman.org", active := true }], nextId := 2 }
        (seed_db { rows := [{ id := 1, email := "michael@mherman.org", active := true }], nextId := 2 }) =
      ({ rows := [{ id := 1, email := "michael@mherman.org", active := true }], nextId := 2 },
       some DBErr.uniqueViolation) :=
  C10_seed_db_atomic
    { rows := [{ id := 1, email := "michael@mherman.org", active := true }], nextId := 2 }
    (Or.inl (by decide))

end FlaskTraefik
